import Mathlib

/-!
Shallow embedding of the anket poll client (templates/poll.js).

The repository ships two revisions of the same browser script:
* `src/src/templates/poll.js` — the current client (built by trunk);
* `src/server/src/templates/poll.js` — an older embedded copy whose
  `ActionResponse` switch case lacks a `break` and therefore falls
  through into the `PollStateUpdate` case.

The script is pure event-handler logic: each DOM / websocket event
handler is embedded as a function from its inputs (parsed message,
current rendered view, input field value) to its outputs (new view,
alerts and socket sends, exception flag).  JS numbers that the script
only ever treats as integers (`score`, `user_vote`, `vote`) are Int;
DOM attribute values are the strings JS `setAttribute` stores.
-/

namespace Anket

/-- An `ItemView` wire record: `{ id, text, score, user_vote }`.
`id` is opaque to the client; it is modelled as a string. -/
structure ItemView where
  id : String
  text : String
  score : Int
  user_vote : Int
  deriving Repr, DecidableEq

/-- The DOM element produced by `anket_makeItem`: the two attributes it
sets (`setAttribute` stores the stringified value) and the four child
nodes it fills (`innerText` of score / content / up button / down
button). -/
structure ItemElement where
  attrItemID : String
  attrItemUserVote : String
  scoreText : String
  contentText : String
  upGlyph : String
  downGlyph : String
  deriving Repr, DecidableEq

/-- Payload of a `PollStateUpdate` message. -/
structure PollState where
  poll_title : String
  top_items : List ItemView
  latest_items : List ItemView
  user_items : List ItemView
  deriving Repr, DecidableEq

/-- Messages the client sends on the socket
(`JSON.stringify({type, content})` in the script). -/
inductive ClientMsg where
  | AddItem (text : String)
  | VoteItem (item_id : String) (vote : Int)
  deriving Repr, DecidableEq

/-- The `content` field of a parsed server message.  `ActionResponse`
carries a string, `PollStateUpdate` a poll state record; `junk` stands
for any other JSON value (for which property access in JS yields
`undefined`). -/
inductive JSContent where
  | str (s : String)
  | poll (p : PollState)
  | junk
  deriving Repr, DecidableEq

/-- A parsed server message: `JSON.parse(event.data)` with a `type`
discriminator and a `content` payload. -/
structure ServerMsg where
  type : String
  content : JSContent
  deriving Repr, DecidableEq

/-- Observable side effects a handler can perform: `alert(x)`, a
`socket.send`, opening a new connection, closing the connection. -/
inductive ClientEffect where
  | alert (content : JSContent)
  | send (msg : ClientMsg)
  | connect (url : String)
  | close
  deriving Repr, DecidableEq

/-- The rendered poll view: the title element and the contents of the
three item-list containers. -/
structure CanvasView where
  title : String
  top_items : List ItemElement
  latest_items : List ItemElement
  user_items : List ItemElement
  deriving Repr, DecidableEq

/-- `anket_sendVoteItemMsg(itemID, voteValue)`:
`socket.send(JSON.stringify({type: "VoteItem", content: {item_id, vote}}))`. -/
def anket_sendVoteItemMsg (itemID : String) (voteValue : Int) : ClientMsg :=
  ClientMsg.VoteItem itemID voteValue

/-- `anket_makeItem(details)`: builds an item card, stores `id` and
`user_vote` as attributes (stringified by `setAttribute`), fills score
and content text, and picks the vote-button glyphs from `user_vote`. -/
def anket_makeItem (details : ItemView) : ItemElement :=
  { attrItemID := details.id
    attrItemUserVote := toString details.user_vote
    scoreText := toString details.score
    contentText := details.text
    upGlyph := if details.user_vote = 1 then "⬆" else "⇧"
    downGlyph := if details.user_vote = -1 then "⬇" else "⇩" }

/-- The `buttonUp.onclick` closure of `anket_makeItem`: reads the
`anket-itemUserVote` attribute back (a string), sends vote `0` if it is
`"1"`, else vote `1`.  The closure captures `details.id`, which equals
the stored `anket-itemID` attribute. -/
def buttonUpOnclick (item : ItemElement) : ClientMsg :=
  anket_sendVoteItemMsg item.attrItemID
    (if item.attrItemUserVote = "1" then 0 else 1)

/-- The `buttonDown.onclick` closure of `anket_makeItem`: sends vote `0`
if the stored attribute is `"-1"`, else vote `-1`. -/
def buttonDownOnclick (item : ItemElement) : ClientMsg :=
  anket_sendVoteItemMsg item.attrItemID
    (if item.attrItemUserVote = "-1" then 0 else -1)

/-- `anket_renderItems(items, target)`: sets `target.innerHTML = ""`
(dropping whatever was rendered before) and then appends
`anket_makeItem(details)` for each entry in order.  Returns the new
contents of the target container. -/
def anket_renderItems (items : List ItemView) (target : List ItemElement) :
    List ItemElement :=
  let cleared : List ItemElement := []
  let _ := target
  items.foldl (fun acc details => acc ++ [anket_makeItem details]) cleared

theorem anket_renderItems_eq_map (items : List ItemView)
    (target : List ItemElement) :
    anket_renderItems items target = items.map anket_makeItem := by
  suffices h : ∀ acc : List ItemElement,
      items.foldl (fun acc details => acc ++ [anket_makeItem details]) acc =
        acc ++ items.map anket_makeItem by
    simpa [anket_renderItems] using h []
  induction items with
  | nil => intro acc; simp
  | cons d rest ih => intro acc; simp [List.foldl_cons, ih]

/-- Outcome of running an event listener body: the poll view afterward,
the effects performed (in order), and whether the body threw a JS
exception part-way (mutations made before the throw persist, since the
DOM is mutated in place). -/
structure HandlerResult where
  view : CanvasView
  effects : List ClientEffect
  threw : Bool
  deriving Repr, DecidableEq

/-- The body of the `"PollStateUpdate"` switch case, run against a
`content` value `c` with the view in state `view`:

* when `c` is a poll-state record it sets the title and re-renders the
  three containers from the three received lists;
* when `c` is anything else (as happens on fallthrough from the
  `"ActionResponse"` case, where `c` is a string), JS property access
  yields `undefined`: `title.innerText = undefined` renders the string
  `"undefined"`, then `anket_renderItems(undefined, top)` clears the
  top container and throws (`undefined.forEach`), so the latest and
  user containers keep their previous contents. -/
def pollStateUpdateCase (view : CanvasView) (c : JSContent) :
    CanvasView × Bool :=
  match c with
  | JSContent.poll p =>
      ({ title := p.poll_title
         top_items := anket_renderItems p.top_items view.top_items
         latest_items := anket_renderItems p.latest_items view.latest_items
         user_items := anket_renderItems p.user_items view.user_items },
       false)
  | _ => ({ view with title := "undefined", top_items := [] }, true)

/-- The `message` listener of the current client
(`src/src/templates/poll.js`): `switch (data.type)` with a `break` at
the end of each case, so `"ActionResponse"` only alerts, and a type
matching no case does nothing. -/
def handleMessage (view : CanvasView) (data : ServerMsg) : HandlerResult :=
  if data.type = "ActionResponse" then
    { view := view, effects := [ClientEffect.alert data.content], threw := false }
  else if data.type = "PollStateUpdate" then
    let (v, t) := pollStateUpdateCase view data.content
    { view := v, effects := [], threw := t }
  else
    { view := view, effects := [], threw := false }

/-- The `message` listener of the legacy embedded client
(`src/server/src/templates/poll.js`): identical except that the
`"ActionResponse"` case has no `break`, so after the alert execution
falls through into the `"PollStateUpdate"` case body. -/
def handleMessageLegacy (view : CanvasView) (data : ServerMsg) :
    HandlerResult :=
  if data.type = "ActionResponse" then
    let (v, t) := pollStateUpdateCase view data.content
    { view := v, effects := [ClientEffect.alert data.content], threw := t }
  else if data.type = "PollStateUpdate" then
    let (v, t) := pollStateUpdateCase view data.content
    { view := v, effects := [], threw := t }
  else
    { view := view, effects := [], threw := false }

/-- The `submit` listener installed by `anket_initCanvas` in the current
client: `event.preventDefault()`; if `input.value.length > 0` send an
`AddItem` message with the raw value; then `input.value = ""`.
Returns (effects, input value afterward, whether default was
prevented). -/
def submitListener (inputValue : String) :
    List ClientEffect × String × Bool :=
  (if inputValue.length > 0
     then [ClientEffect.send (ClientMsg.AddItem inputValue)]
     else [],
   "", true)

/-- The `close` event carries `wasClean`, `code` and `reason`; the
listener ignores all of them. -/
structure CloseEvent where
  wasClean : Bool
  code : Nat
  reason : String
  deriving Repr, DecidableEq

/-- The `close` listener of `anket_main` (both revisions):
`alert("websocket connection closed")`, nothing else. -/
def onCloseListener (event : CloseEvent) : List ClientEffect :=
  let _ := event
  [ClientEffect.alert (JSContent.str "websocket connection closed")]

/-- The `error` listener of `anket_main` (both revisions):
`alert("websocket connection lost")`, nothing else.  The DOM error
event carries no usable data; it is modelled as `Unit`. -/
def onErrorListener (event : Unit) : List ClientEffect :=
  let _ := event
  [ClientEffect.alert (JSContent.str "websocket connection lost")]

/-- JS `Array.prototype.slice(-2)`: the last two elements (the whole
array when it is shorter). -/
def jsSliceLastTwo (l : List String) : List String :=
  l.drop (l.length - 2)

/-- JS `String.prototype.split("/")`, on the character list of the
string: every `/` starts a new segment, so consecutive separators and
separators at either end produce empty segments, and the empty string
splits to `[""]`. -/
def splitSlash : List Char → List String
  | [] => [""]
  | c :: rest =>
      if c = '/' then "" :: splitSlash rest
      else
        match splitSlash rest with
        | s :: ss => String.mk (c :: s.data) :: ss
        | [] => [String.mk [c]]

/-- `window.location.pathname.split("/")`. -/
def pathSegments (pathname : String) : List String :=
  splitSlash pathname.data

/-- `anket_getPollID()` (both revisions): split
`window.location.pathname` on `"/"`, keep the last two segments; if
fewer than two segments remain, or the first kept segment is not
`"p"`, or the second kept segment is empty, throw; else return the
second kept segment.  `window.location.pathname` is the `pathname`
argument; the throw is modelled as `Except.error` carrying the error
message. -/
def anket_getPollID (pathname : String) : Except String String :=
  let urlArr := jsSliceLastTwo (pathSegments pathname)
  if urlArr.length < 2 ∨ urlArr.getD 0 "" ≠ "p" ∨ (urlArr.getD 1 "").length = 0
  then Except.error "Couldn\x27t determine poll ID from this URL."
  else Except.ok (urlArr.getD 1 "")

/-- `anket_getWSUrl(pollID)` of the current client:
scheme `"wss"` when `window.location.protocol == "https:"`, else
`"ws"`, then `${scheme}://${window.location.host}/p/${pollID}/ws`.
`protocol` and `host` are the corresponding `window.location` fields. -/
def anket_getWSUrl (protocol host pollID : String) : String :=
  let scheme := if protocol = "https:" then "wss" else "ws"
  scheme ++ "://" ++ host ++ "/p/" ++ pollID ++ "/ws"

/-- The URL string the legacy embedded client passes to
`new WebSocket(...)`: the relative path `/p/${pollID}/ws` (the browser
resolves it against the page origin). -/
def legacyWSUrl (pollID : String) : String :=
  "/p/" ++ pollID ++ "/ws"

/-- A concrete rendered view used for concrete evaluations: a title and
one rendered item in each container. -/
def demoView : CanvasView :=
  { title := "Lunch poll"
    top_items := [anket_makeItem { id := "i1", text := "Pizza", score := 2, user_vote := 1 }]
    latest_items := [anket_makeItem { id := "i1", text := "Pizza", score := 2, user_vote := 1 }]
    user_items := [anket_makeItem { id := "i1", text := "Pizza", score := 2, user_vote := 1 }] }

theorem toString_int_small (v : Int)
    (h : v = -1 ∨ v = 0 ∨ v = 1) :
    (toString v = "1" ↔ v = 1) ∧ (toString v = "-1" ↔ v = -1) := by
  rcases h with h | h | h <;> subst h <;> exact ⟨by decide, by decide⟩

/-- Claim C5: the element built by `anket_makeItem` carries the item id
and the user vote as attributes, shows the score and the text in the
score and content nodes, and the up / down glyphs are filled exactly
when `user_vote` is `1` / `-1` respectively. -/
theorem anket_C5_makeItem (details : ItemView) :
    (anket_makeItem details).attrItemID = details.id ∧
    (anket_makeItem details).attrItemUserVote = toString details.user_vote ∧
    (anket_makeItem details).scoreText = toString details.score ∧
    (anket_makeItem details).contentText = details.text ∧
    ((anket_makeItem details).upGlyph = "⬆" ↔ details.user_vote = 1) ∧
    (details.user_vote ≠ 1 → (anket_makeItem details).upGlyph = "⇧") ∧
    ((anket_makeItem details).downGlyph = "⬇" ↔ details.user_vote = -1) ∧
    (details.user_vote ≠ -1 → (anket_makeItem details).downGlyph = "⇩") := by
  refine ⟨rfl, rfl, rfl, rfl, ?_, ?_, ?_, ?_⟩ <;>
    by_cases h : details.user_vote = 1 <;>
    by_cases h2 : details.user_vote = -1 <;>
    simp [anket_makeItem, h, h2]

theorem anket_C5_makeItem_witness :
    (anket_makeItem ⟨"i1", "Pizza", 2, 1⟩).attrItemID = "i1" ∧
    (anket_makeItem ⟨"i1", "Pizza", 2, 1⟩).attrItemUserVote = toString (1 : Int) ∧
    (anket_makeItem ⟨"i1", "Pizza", 2, 1⟩).scoreText = toString (2 : Int) ∧
    (anket_makeItem ⟨"i1", "Pizza", 2, 1⟩).contentText = "Pizza" ∧
    ((anket_makeItem ⟨"i1", "Pizza", 2, 1⟩).upGlyph = "⬆" ↔ (1 : Int) = 1) ∧
    ((1 : Int) ≠ 1 → (anket_makeItem ⟨"i1", "Pizza", 2, 1⟩).upGlyph = "⇧") ∧
    ((anket_makeItem ⟨"i1", "Pizza", 2, 1⟩).downGlyph = "⬇" ↔ (1 : Int) = -1) ∧
    ((1 : Int) ≠ -1 → (anket_makeItem ⟨"i1", "Pizza", 2, 1⟩).downGlyph = "⇩") :=
  anket_C5_makeItem ⟨"i1", "Pizza", 2, 1⟩

/-- Claim C2: for an item rendered with user vote in `{-1,0,1}`, the up
button sends vote `0` when the rendered vote is `1` and vote `1`
otherwise; the down button sends vote `0` when the rendered vote is
`-1` and vote `-1` otherwise; and any vote value either button sends is
in `{-1,0,1}`. -/
theorem anket_C2_voteButtons (details : ItemView)
    (h : details.user_vote = -1 ∨ details.user_vote = 0 ∨ details.user_vote = 1) :
    buttonUpOnclick (anket_makeItem details) =
      anket_sendVoteItemMsg details.id (if details.user_vote = 1 then 0 else 1) ∧
    buttonDownOnclick (anket_makeItem details) =
      anket_sendVoteItemMsg details.id (if details.user_vote = -1 then 0 else -1) ∧
    (∀ v : Int,
      (buttonUpOnclick (anket_makeItem details) = anket_sendVoteItemMsg details.id v ∨
       buttonDownOnclick (anket_makeItem details) = anket_sendVoteItemMsg details.id v) →
      v = -1 ∨ v = 0 ∨ v = 1) := by
  obtain ⟨hu, hd⟩ := toString_int_small details.user_vote h
  have e1 : buttonUpOnclick (anket_makeItem details) =
      anket_sendVoteItemMsg details.id (if details.user_vote = 1 then 0 else 1) := by
    simp only [buttonUpOnclick, anket_makeItem, anket_sendVoteItemMsg]
    by_cases hc : details.user_vote = 1
    · rw [if_pos (hu.mpr hc), if_pos hc]
    · rw [if_neg (fun hh => hc (hu.mp hh)), if_neg hc]
  have e2 : buttonDownOnclick (anket_makeItem details) =
      anket_sendVoteItemMsg details.id (if details.user_vote = -1 then 0 else -1) := by
    simp only [buttonDownOnclick, anket_makeItem, anket_sendVoteItemMsg]
    by_cases hc : details.user_vote = -1
    · rw [if_pos (hd.mpr hc), if_pos hc]
    · rw [if_neg (fun hh => hc (hd.mp hh)), if_neg hc]
  refine ⟨e1, e2, ?_⟩
  intro v hv
  rcases hv with hv | hv
  · rw [e1] at hv
    simp only [anket_sendVoteItemMsg, ClientMsg.VoteItem.injEq, true_and] at hv
    by_cases hc : details.user_vote = 1
    · rw [if_pos hc] at hv; omega
    · rw [if_neg hc] at hv; omega
  · rw [e2] at hv
    simp only [anket_sendVoteItemMsg, ClientMsg.VoteItem.injEq, true_and] at hv
    by_cases hc : details.user_vote = -1
    · rw [if_pos hc] at hv; omega
    · rw [if_neg hc] at hv; omega

theorem anket_C2_voteButtons_witness :
    buttonUpOnclick (anket_makeItem ⟨"i1", "Pizza", 2, 1⟩) =
      anket_sendVoteItemMsg "i1" 0 ∧
    buttonDownOnclick (anket_makeItem ⟨"i1", "Pizza", 2, 1⟩) =
      anket_sendVoteItemMsg "i1" (-1) ∧
    (∀ v : Int,
      (buttonUpOnclick (anket_makeItem ⟨"i1", "Pizza", 2, 1⟩) =
        anket_sendVoteItemMsg "i1" v ∨
       buttonDownOnclick (anket_makeItem ⟨"i1", "Pizza", 2, 1⟩) =
        anket_sendVoteItemMsg "i1" v) →
      v = -1 ∨ v = 0 ∨ v = 1) :=
  anket_C2_voteButtons ⟨"i1", "Pizza", 2, 1⟩ (Or.inr (Or.inr rfl))

/-- Claim C1: in the current client, an `ActionResponse` message only
raises an alert with the message content and leaves the rendered view
untouched.  The legacy embedded client violates this: its
`ActionResponse` case has no `break`, so it falls through into the
`PollStateUpdate` case, which on a string content overwrites the title
with `"undefined"`, clears the top-items container, and throws. -/
theorem anket_C1_actionResponse :
    (∀ (view : CanvasView) (c : JSContent),
      handleMessage view { type := "ActionResponse", content := c } =
        { view := view, effects := [ClientEffect.alert c], threw := false }) ∧
    handleMessageLegacy demoView
        { type := "ActionResponse", content := JSContent.str "item not found" } =
      { view := { demoView with title := "undefined", top_items := [] }
        effects := [ClientEffect.alert (JSContent.str "item not found")]
        threw := true } ∧
    ({ demoView with title := "undefined", top_items := [] } : CanvasView) ≠
      demoView :=
  ⟨fun view c => rfl, rfl, by decide⟩

/-- Claim C4: a `PollStateUpdate` message makes the handler set the
title to `poll_title` and rebuild each of the three containers from
scratch as the ordered image of the corresponding received list under
`anket_makeItem`; the previous view does not appear in the result. -/
theorem anket_C4_pollStateUpdate (view : CanvasView) (p : PollState) :
    handleMessage view { type := "PollStateUpdate", content := JSContent.poll p } =
      { view := { title := p.poll_title
                  top_items := p.top_items.map anket_makeItem
                  latest_items := p.latest_items.map anket_makeItem
                  user_items := p.user_items.map anket_makeItem }
        effects := []
        threw := false } := by
  simp [handleMessage, pollStateUpdateCase, anket_renderItems_eq_map]

/-- Claim C6: a message whose `type` matches no switch case is ignored
by both client revisions: the view is unchanged and no effect (alert,
send, connect, close) is performed, and no exception is thrown. -/
theorem anket_C6_unknownType (view : CanvasView) (data : ServerMsg)
    (h1 : data.type ≠ "ActionResponse") (h2 : data.type ≠ "PollStateUpdate") :
    handleMessage view data = { view := view, effects := [], threw := false } ∧
    handleMessageLegacy view data =
      { view := view, effects := [], threw := false } := by
  constructor
  · unfold handleMessage
    rw [if_neg h1, if_neg h2]
  · unfold handleMessageLegacy
    rw [if_neg h1, if_neg h2]

theorem anket_C6_unknownType_witness :
    handleMessage demoView { type := "Bogus", content := JSContent.junk } =
      { view := demoView, effects := [], threw := false } ∧
    handleMessageLegacy demoView { type := "Bogus", content := JSContent.junk } =
      { view := demoView, effects := [], threw := false } :=
  anket_C6_unknownType demoView ⟨"Bogus", JSContent.junk⟩ (by decide) (by decide)

/-- Spec-side trimming, on the character list of a string: drop leading
and trailing whitespace.  This formalises the spec phrase "empty after
trimming" (JS `String.prototype.trim`). -/
def trimmedChars (s : String) : List Char :=
  ((s.data.dropWhile Char.isWhitespace).reverse.dropWhile Char.isWhitespace).reverse

theorem string_length_pos_of_ne_empty (s : String) (h : s ≠ "") :
    0 < s.length := by
  obtain ⟨data⟩ := s
  cases data with
  | nil => exact absurd rfl h
  | cons c cs => simp [String.length]

/-- Claim C3 counterexample: the submit listener checks the raw length
only (`input.value.length > 0`); the whitespace-only input `" "` is
empty after trimming, yet an `AddItem` message carrying `" "` is sent. -/
theorem anket_C3_counterexample :
    trimmedChars " " = [] ∧
    (submitListener " ").1 = [ClientEffect.send (ClientMsg.AddItem " ")] :=
  ⟨by decide, by decide⟩

/-- Claim C3 as amended: an `AddItem` message is sent if and only if
the raw input value is non-empty; a whitespace-only value is still
sent (trim-based rejection happens on the server, not in this
listener). -/
theorem anket_C3_amended (input : String) :
    ((submitListener input).1 = [ClientEffect.send (ClientMsg.AddItem input)] ↔
      input ≠ "") ∧
    ((submitListener input).1 = [] ↔ input = "") := by
  by_cases h : input = ""
  · subst h; decide
  · have hl : 0 < input.length := string_length_pos_of_ne_empty input h
    simp [submitListener, hl, h]

theorem anket_C3_amended_witness :
    ((submitListener " ").1 = [ClientEffect.send (ClientMsg.AddItem " ")] ↔
      (" " : String) ≠ "") ∧
    ((submitListener " ").1 = [] ↔ (" " : String) = "") :=
  anket_C3_amended " "

/-- Claim C10: every submission clears the input field and suppresses
the browser default, whether or not an `AddItem` message was sent. -/
theorem anket_C10_submitResets (input : String) :
    (submitListener input).2.1 = "" ∧ (submitListener input).2.2 = true :=
  ⟨rfl, rfl⟩

/-- Claim C9: both the `close` and the `error` listener raise one
generic alert whose text does not depend on the event (so a graceful
and an abnormal close are indistinguishable), and neither listener
opens a new connection or sends anything. -/
theorem anket_C9_transportTermination :
    (∀ e : CloseEvent, onCloseListener e =
      [ClientEffect.alert (JSContent.str "websocket connection closed")]) ∧
    (∀ e₁ e₂ : CloseEvent, onCloseListener e₁ = onCloseListener e₂) ∧
    (∀ e : Unit, onErrorListener e =
      [ClientEffect.alert (JSContent.str "websocket connection lost")]) ∧
    (∀ (e : CloseEvent) (url : String),
      ClientEffect.connect url ∉ onCloseListener e) ∧
    (∀ (e : Unit) (url : String),
      ClientEffect.connect url ∉ onErrorListener e) ∧
    (∀ (e : CloseEvent) (m : ClientMsg),
      ClientEffect.send m ∉ onCloseListener e) ∧
    (∀ (e : Unit) (m : ClientMsg),
      ClientEffect.send m ∉ onErrorListener e) := by
  refine ⟨fun e => rfl, fun e₁ e₂ => rfl, fun e => rfl, ?_, ?_, ?_, ?_⟩ <;>
    intro e x <;> simp [onCloseListener, onErrorListener]

/-- Claim C8: the current client connects to
`{scheme}://{host}/p/{pollID}/ws` with scheme `wss` exactly when the
page protocol is `https:` and `ws` otherwise, on the page host; the
legacy client passes the relative path `/p/{pollID}/ws` to the
`WebSocket` constructor (same host and matching scheme by browser URL
resolution). -/
theorem anket_C8_wsUrl (protocol host pollID : String) :
    (protocol = "https:" →
      anket_getWSUrl protocol host pollID =
        "wss://" ++ host ++ "/p/" ++ pollID ++ "/ws") ∧
    (protocol ≠ "https:" →
      anket_getWSUrl protocol host pollID =
        "ws://" ++ host ++ "/p/" ++ pollID ++ "/ws") ∧
    legacyWSUrl pollID = "/p/" ++ pollID ++ "/ws" := by
  refine ⟨fun h => ?_, fun h => ?_, rfl⟩
  · unfold anket_getWSUrl
    rw [if_pos h]
    rfl
  · unfold anket_getWSUrl
    rw [if_neg h]
    rfl

theorem anket_C8_wsUrl_witness :
    anket_getWSUrl "https:" "example.com" "abc" = "wss://example.com/p/abc/ws" ∧
    anket_getWSUrl "http:" "example.com" "abc" = "ws://example.com/p/abc/ws" ∧
    legacyWSUrl "abc" = "/p/abc/ws" :=
  ⟨(anket_C8_wsUrl "https:" "example.com" "abc").1 rfl,
   (anket_C8_wsUrl "http:" "example.com" "abc").2.1 (by decide),
   (anket_C8_wsUrl "http:" "example.com" "abc").2.2⟩

/-- Spec-side shape of a poll page path: at least two segments, the
second-to-last segment is the literal `"p"`, the last segment is
non-empty. -/
@[reducible] def pollPathOK (pathname : String) : Prop :=
  2 ≤ (pathSegments pathname).length ∧
  (pathSegments pathname).getD ((pathSegments pathname).length - 2) "" = "p" ∧
  (pathSegments pathname).getD ((pathSegments pathname).length - 1) "" ≠ ""

/-- The last segment of the page path. -/
def lastSegment (pathname : String) : String :=
  (pathSegments pathname).getD ((pathSegments pathname).length - 1) ""

theorem string_length_eq_zero_iff (s : String) : s.length = 0 ↔ s = "" := by
  constructor
  · intro h
    by_contra hne
    have := string_length_pos_of_ne_empty s hne
    omega
  · intro h
    subst h
    rfl

theorem jsSliceLastTwo_eq_pair (l : List String) (h : 2 ≤ l.length) :
    jsSliceLastTwo l = [l.getD (l.length - 2) "", l.getD (l.length - 1) ""] := by
  induction l with
  | nil => simp at h
  | cons a t ih =>
    rcases Nat.lt_or_ge t.length 2 with ht | ht
    · rcases t with _ | ⟨b, t2⟩
      · simp only [List.length_cons, List.length_nil] at h
        omega
      · rcases t2 with _ | ⟨c, t3⟩
        · rfl
        · simp only [List.length_cons] at ht
          omega
    · have h2 : (a :: t).length - 2 = (t.length - 2) + 1 := by
        simp only [List.length_cons]
        omega
      have h1 : (a :: t).length - 1 = (t.length - 1) + 1 := by
        simp only [List.length_cons]
        omega
      have hstep : jsSliceLastTwo (a :: t) = jsSliceLastTwo t := by
        unfold jsSliceLastTwo
        rw [h2, List.drop_succ_cons]
      rw [hstep, h2, h1, List.getD_cons_succ, List.getD_cons_succ, ih ht]

theorem anket_getPollID_eq (pathname : String) :
    anket_getPollID pathname =
      (if (jsSliceLastTwo (pathSegments pathname)).length < 2 ∨
          (jsSliceLastTwo (pathSegments pathname)).getD 0 "" ≠ "p" ∨
          ((jsSliceLastTwo (pathSegments pathname)).getD 1 "").length = 0
       then Except.error "Couldn\x27t determine poll ID from this URL."
       else Except.ok ((jsSliceLastTwo (pathSegments pathname)).getD 1 "")) :=
  rfl

theorem anket_getPollID_pair (pathname : String) (x y : String)
    (hp : jsSliceLastTwo (pathSegments pathname) = [x, y]) :
    anket_getPollID pathname =
      if x = "p" ∧ y ≠ "" then Except.ok y
      else Except.error "Couldn\x27t determine poll ID from this URL." := by
  rw [anket_getPollID_eq, hp]
  simp only [List.length_cons, List.length_nil, List.getD_cons_zero,
    List.getD_cons_succ]
  by_cases hx : x = "p"
  · by_cases hy : y = ""
    · rw [if_pos (Or.inr (Or.inr (by rw [hy]; rfl))), if_neg]
      rintro ⟨-, hny⟩
      exact hny hy
    · rw [if_neg, if_pos ⟨hx, hy⟩]
      rintro (hc | hc | hc)
      · omega
      · exact hc hx
      · exact hy ((string_length_eq_zero_iff y).mp hc)
  · rw [if_pos (Or.inr (Or.inl hx)), if_neg]
    rintro ⟨h1, -⟩
    exact hx h1

/-- Claim C7: `anket_getPollID` returns the last path segment exactly
when the second-to-last segment is `"p"` and the last segment is
non-empty, throws the fixed error message in every other case, and no
segment before the last two influences the result. -/
theorem anket_C7_getPollID :
    (∀ pathname : String,
      (pollPathOK pathname →
        anket_getPollID pathname = Except.ok (lastSegment pathname)) ∧
      (¬ pollPathOK pathname →
        anket_getPollID pathname =
          Except.error "Couldn\x27t determine poll ID from this URL.")) ∧
    (∀ p q : String,
      2 ≤ (pathSegments p).length →
      2 ≤ (pathSegments q).length →
      (pathSegments p).getD ((pathSegments p).length - 2) "" =
        (pathSegments q).getD ((pathSegments q).length - 2) "" →
      (pathSegments p).getD ((pathSegments p).length - 1) "" =
        (pathSegments q).getD ((pathSegments q).length - 1) "" →
      anket_getPollID p = anket_getPollID q) := by
  constructor
  · intro pathname
    by_cases hlen : 2 ≤ (pathSegments pathname).length
    · have hchar := anket_getPollID_pair pathname _ _
        (jsSliceLastTwo_eq_pair (pathSegments pathname) hlen)
      constructor
      · intro hOK
        obtain ⟨-, hx, hy⟩ := hOK
        rw [hchar, if_pos ⟨hx, hy⟩]
        rfl
      · intro hnot
        rw [hchar, if_neg]
        rintro ⟨hx, hy⟩
        exact hnot ⟨hlen, hx, hy⟩
    · have hslice : jsSliceLastTwo (pathSegments pathname) =
          pathSegments pathname := by
        unfold jsSliceLastTwo
        have h0 : (pathSegments pathname).length - 2 = 0 := by omega
        rw [h0, List.drop_zero]
      constructor
      · intro hOK
        exact absurd hOK.1 hlen
      · intro hnot
        rw [anket_getPollID_eq, hslice, if_pos (Or.inl (by omega))]
  · intro p q hp hq hx hy
    rw [anket_getPollID_eq, anket_getPollID_eq,
      jsSliceLastTwo_eq_pair (pathSegments p) hp,
      jsSliceLastTwo_eq_pair (pathSegments q) hq, hx, hy]

theorem anket_C7_getPollID_witness :
    anket_getPollID "/p/abc123" = Except.ok "abc123" ∧
    anket_getPollID "/polls/abc123" =
      Except.error "Couldn\x27t determine poll ID from this URL." ∧
    anket_getPollID "/one/two/p/xyz" = anket_getPollID "/p/xyz" :=
  ⟨(anket_C7_getPollID.1 "/p/abc123").1 ⟨by decide, by decide, by decide⟩,
   (anket_C7_getPollID.1 "/polls/abc123").2 (by decide),
   anket_C7_getPollID.2 "/one/two/p/xyz" "/p/xyz"
     (by decide) (by decide) (by decide) (by decide)⟩

end Anket
